import Mathlib

/-!
Shallow embedding of the attendance application's two serverless handlers:

* `netlify/functions/stats.js` — the Stats Aggregator: reads the full roster
  and attendance history and produces a denormalized report.
* `netlify/functions/submitAttendance.js` — the Submission Validator: validates
  a single attendance claim and records it at most once per identity per day.

The Mongo collections are embedded as Lean lists; object-map lookups become
`Option`-valued functions; the ambient Eastern-time clock parts (weekday,
hour, minute, date string) are explicit arguments; the store's insert with its
unique index on `(uid, date)` is an `Except` returning either the duplicate-key
error (Mongo code 11000), an injected infrastructure fault, or the new
collection contents.
-/

namespace AttendanceApp

/-- A roster entry, as stored in the `students` collection and projected by
`stats.js` (`uid, name, section, email`).  `email` is optional in the store
(`s.email || ""` in the source). The source field `section` is a Lean keyword,
so it is embedded as `section'`. -/
structure Student where
  uid : String
  name : String
  section' : String
  email : Option String
deriving DecidableEq, Repr

/-- An attendance record `{uid, date, section, timestamp}` as inserted by
`submitAttendance.js`.  The stats handler's projection drops `timestamp`. -/
structure AttendanceRecord where
  uid : String
  date : String
  section' : String
  timestamp : String
deriving DecidableEq, Repr

/-! ## Stats Aggregator (stats.js) -/

/-- The three configured section codes, hard-coded in `stats.js`
(`sectionData = { "0201": {}, "0202": {}, "0203": {} }` and the literal
lists `["0201", "0202", "0203"]`). -/
def sectionCodes : List String := ["0201", "0202", "0203"]

/-- The key used by the attendance lookup set: `` `${a.uid}|${a.date}` ``. -/
def attKey (uid date : String) : String := uid ++ "|" ++ date

/-- The attendance lookup set `attendedSet`, built by
`attendance.forEach((a) => attendedSet.add(`${a.uid}|${a.date}`))`.
Embedded as the list of keys; membership is what matters. -/
def attendedKeys (att : List AttendanceRecord) : List String :=
  att.map (fun a => attKey a.uid a.date)

/-- `attendedSet.has(k)`. -/
def attHas (att : List AttendanceRecord) (k : String) : Bool :=
  (attendedKeys att).contains k

/-- One step of the `attendance.forEach` loop that builds `sectionData`:
`if (sectionData[a.section]) sectionData[a.section][a.date] = (… || 0) + 1`.
The outer objects exist exactly for the three configured codes. -/
def sectionDataStep (m : String → String → Nat) (a : AttendanceRecord) :
    String → String → Nat :=
  if a.section' ∈ sectionCodes then
    fun s d => if s = a.section' ∧ d = a.date then m s d + 1 else m s d
  else m

/-- The per-section per-date tallies `sectionData`, with the `|| 0` default
for missing keys built in. -/
def sectionData (att : List AttendanceRecord) : String → String → Nat :=
  att.foldl sectionDataStep (fun _ _ => 0)

/-- The sorted distinct date list: `const dates = [...dateSet].sort()`.
`dateSet` collects every record's date (insertion order), and JavaScript's
default sort on strings is lexicographic, matching `String`'s order.  The
sort is embedded as `insertionSort`, a stable sort; on the distinct dates any
sort with the same order produces the same list. -/
def dates (att : List AttendanceRecord) : List String :=
  ((att.map (fun a => a.date)).dedup).insertionSort (fun a b => a ≤ b)

/-- `sections[sec] = dates.map((d) => sectionData[sec][d] || 0)`. -/
def sections (att : List AttendanceRecord) (sec : String) : List Nat :=
  (dates att).map (fun d => sectionData att sec d)

/-- `rosterTotals[sec] = students.filter((s) => s.section === sec).length`. -/
def rosterTotals (students : List Student) (sec : String) : Nat :=
  (students.filter (fun s => s.section' = sec)).length

/-- A student's absence count:
`dates.filter((d) => !attendedSet.has(`${s.uid}|${d}`)).length`. -/
def absencesOf (att : List AttendanceRecord) (ds : List String) (uid : String) : Nat :=
  (ds.filter (fun d => !(attHas att (attKey uid d)))).length

/-- An entry of `studentsBySection[sec]`:
`{ uid: s.uid, name: s.name, email: s.email || "", absences }`. -/
structure StudentEntry where
  uid : String
  name : String
  email : String
  absences : Nat
deriving DecidableEq, Repr

/-- The order induced by the comparator passed to the (stable) JavaScript
sort, `(a, b) => b.absences - a.absences`: `a` may stay before `b` exactly
when the comparator is non-positive, i.e. when `b.absences ≤ a.absences`. -/
def byAbsencesDesc (a b : StudentEntry) : Prop :=
  b.absences ≤ a.absences

instance : DecidableRel byAbsencesDesc :=
  fun a b => Nat.decLe b.absences a.absences

instance : IsTotal StudentEntry byAbsencesDesc :=
  ⟨fun a b => Nat.le_total b.absences a.absences⟩

instance : IsTrans StudentEntry byAbsencesDesc :=
  ⟨fun _ _ _ hab hbc => Nat.le_trans hbc hab⟩

/-- The section roster mapped to entries with absence counts, in roster
order — the list built by `students.filter(…).map(…)` before the sort. -/
def rosterEntries (students : List Student) (att : List AttendanceRecord)
    (sec : String) : List StudentEntry :=
  (students.filter (fun s => s.section' = sec)).map
    (fun s => StudentEntry.mk s.uid s.name (s.email.getD "") (absencesOf att (dates att) s.uid))

/-- `studentsBySection[sec]`: the section's roster entries stably sorted with
most absences first.  JavaScript's `Array.prototype.sort` is stable, so it is
embedded as `insertionSort`, a stable sort. -/
def studentsBySection (students : List Student) (att : List AttendanceRecord)
    (sec : String) : List StudentEntry :=
  (rosterEntries students att sec).insertionSort byAbsencesDesc

/-- A member of a `details[date][sec].present` list: `{ name, uid }`. -/
structure PresentEntry where
  name : String
  uid : String
deriving DecidableEq, Repr

/-- A member of a `details[date][sec].absent` list: `{ name, uid, email }`. -/
structure AbsentEntry where
  name : String
  uid : String
  email : String
deriving DecidableEq, Repr

/-- A `details[date][sec]` cell. -/
structure Detail where
  present : List PresentEntry
  absent : List AbsentEntry
deriving DecidableEq, Repr

/-- The `details[date][sec]` computation: the section's roster partitioned by
membership of `(uid, date)` in the attendance set. -/
def detailFor (students : List Student) (att : List AttendanceRecord)
    (date sec : String) : Detail :=
  let sectionStudents := students.filter (fun s => s.section' = sec)
  { present :=
      (sectionStudents.filter (fun s => attHas att (attKey s.uid date))).map
        (fun s => PresentEntry.mk s.name s.uid)
    absent :=
      (sectionStudents.filter (fun s => !(attHas att (attKey s.uid date)))).map
        (fun s => AbsentEntry.mk s.name s.uid (s.email.getD "")) }

/-- The assembled report body
`{ dates, sections, rosterTotals, studentsBySection, details }`, with the
object keys laid out as association lists over the configured codes and the
sorted date list. -/
structure Report where
  dates : List String
  sections : List (String × List Nat)
  rosterTotals : List (String × Nat)
  studentsBySection : List (String × List StudentEntry)
  details : List (String × List (String × Detail))
deriving DecidableEq, Repr

/-- The pure aggregation: everything `stats.js` computes after its two store
reads, as a function of the collections. -/
def statsReport (students : List Student) (att : List AttendanceRecord) : Report :=
  { dates := dates att
    sections := sectionCodes.map (fun c => (c, sections att c))
    rosterTotals := sectionCodes.map (fun c => (c, rosterTotals students c))
    studentsBySection := sectionCodes.map (fun c => (c, studentsBySection students att c))
    details := (dates att).map (fun d => (d, sectionCodes.map (fun c => (c, detailFor students att d c)))) }

/-- The outcome of the stats handler: a 401 challenge or the 200 report. -/
inductive StatsResult where
  | unauthorized (statusCode : Nat) (wwwAuthenticate : String) (body : String)
  | ok (statusCode : Nat) (report : Report)
deriving DecidableEq, Repr

/-- The Basic-Auth realm challenge header value sent on both 401 branches. -/
def challengeHeader : String := "Basic realm=\"TA Dashboard\""

/-- The stats handler.  `decode` stands for the external Base64 decoder
(`Buffer.from(…, "base64").toString()`); `authHeader` is
`event.headers.authorization` (`|| ""` when missing).  The credential check
mirrors `const [user, ...passParts] = decoded.split(":")` with
`pass = passParts.join(":")`.  The store collections are consulted only on the
success branch, exactly as the source only queries the database after both
checks pass. -/
def statsHandler (decode : String → String) (authHeader : Option String)
    (adminUser adminPass : String)
    (students : List Student) (att : List AttendanceRecord) : StatsResult :=
  let ah := authHeader.getD ""
  if ¬ ah.startsWith "Basic " then
    .unauthorized 401 challengeHeader "Unauthorized"
  else
    let decoded := decode (ah.drop 6)
    let parts := decoded.splitOn ":"
    let user := parts.headD ""
    let pass := String.intercalate ":" parts.tail
    if user ≠ adminUser ∨ pass ≠ adminPass then
      .unauthorized 401 challengeHeader "Invalid credentials"
    else
      .ok 200 (statsReport students att)

/-! ## Submission Validator (submitAttendance.js) -/

/-- A per-section time window `{ start, end }` (Eastern Time, hour
boundaries).  The source field `end` is a Lean keyword, so it is embedded as
`endH`. -/
structure Window where
  start : Nat
  endH : Nat
deriving DecidableEq, Repr

/-- The hard-coded window table `WINDOWS`, as an `Option`-valued lookup. -/
def WINDOWS : String → Option Window
  | "0201" => some (Window.mk 12 13)
  | "0202" => some (Window.mk 13 14)
  | "0203" => some (Window.mk 14 15)
  | _ => none

/-- The test `/^\d+$/.test(uid)`: non-empty and all characters decimal
digits. -/
def uidNumeric (s : String) : Bool :=
  !s.isEmpty && s.data.all (fun c => c.isDigit)

/-- The window rejection message
`` `Outside attendance window for section ${section} (${window.start}:00–${window.end}:00 ET)` ``. -/
def windowErrorMsg (sec : String) (w : Window) : String :=
  "Outside attendance window for section " ++ sec ++ " (" ++ toString w.start
    ++ ":00–" ++ toString w.endH ++ ":00 ET)"

/-- A store-layer failure as surfaced by the driver: an optional numeric error
code (11000 is the duplicate-key code) and a message. -/
structure StoreErr where
  code : Option Nat
  msg : String
deriving DecidableEq, Repr

/-- The insert into the `attendance` collection under its unique index on
`{uid, date}`.  `fault` injects any non-duplicate infrastructure failure (of
the `createIndex`/`insertOne` calls inside the `try`); with a healthy store the
insert fails with the duplicate-key code exactly when a record with the same
`(uid, date)` already exists, and otherwise appends the one new record. -/
def insertAttendance (att : List AttendanceRecord) (fault : Option StoreErr)
    (r : AttendanceRecord) : Except StoreErr (List AttendanceRecord) :=
  match fault with
  | some e => .error e
  | none =>
    if att.any (fun a => a.uid = r.uid ∧ a.date = r.date) then
      .error (StoreErr.mk (some 11000) "E11000 duplicate key error")
    else
      .ok (att ++ [r])

/-- The submit handler's observable outcome: an HTTP response (status code,
`error` field, `message` field, `date` field of the JSON body) or a rethrown
store error. -/
inductive SubmitOutcome where
  | resp (statusCode : Nat) (error : Option String) (message : Option String)
      (date : Option String)
  | thrown (e : StoreErr)
deriving DecidableEq, Repr

/-- The database phase of the submit handler: roster lookup by uid
(`findOne({ uid })` embedded as `find?` over the collection), section match,
then the guarded insert with the `err.code === 11000` conflict mapping; any
other caught error is rethrown. -/
def submitDbPhase (uid sec dateStr nowISO : String)
    (roster : List Student) (att : List AttendanceRecord) (fault : Option StoreErr) :
    SubmitOutcome × List AttendanceRecord :=
  match roster.find? (fun s => s.uid = uid) with
  | none => (.resp 400 (some "UID not found in roster") none none, att)
  | some student =>
    if student.section' ≠ sec then
      (.resp 400 (some "Section does not match your registered section") none none, att)
    else
      match insertAttendance att fault
          (AttendanceRecord.mk uid dateStr sec nowISO) with
      | .error e =>
        if e.code = some 11000 then
          (.resp 409 (some "Attendance already submitted for today") none none, att)
        else
          (.thrown e, att)
      | .ok att2 =>
        (.resp 200 none (some "Attendance recorded successfully!") (some dateStr), att2)

/-- The submit handler.  `body` is the parsed JSON body (`none` when
`JSON.parse` throws), carrying the optional `uid` and `section` fields; the
only falsy string is `""`, so `!uid || !section` is the emptiness test on the
defaulted values.  `weekday`, `hour`, `minute` and `dateStr` are the
Eastern-time parts of the ambient clock (`getEasternTimeParts`), `nowISO` is
`now.toISOString()`, and `devBypassTime` is the `DEV_BYPASS_TIME` environment
variable.  Returns the outcome together with the resulting attendance
collection. -/
def submitHandler (httpMethod : String) (body : Option (Option String × Option String))
    (weekday : String) (hour minute : Nat) (dateStr : String)
    (devBypassTime : Option String) (nowISO : String)
    (roster : List Student) (att : List AttendanceRecord) (fault : Option StoreErr) :
    SubmitOutcome × List AttendanceRecord :=
  if httpMethod ≠ "POST" then
    (.resp 405 (some "Method not allowed") none none, att)
  else
    match body with
    | none => (.resp 400 (some "Invalid JSON") none none, att)
    | some (uidOpt, secOpt) =>
      let uid := uidOpt.getD ""
      let sec := secOpt.getD ""
      if uid = "" ∨ sec = "" then
        (.resp 400 (some "Missing UID or section") none none, att)
      else if ¬ uidNumeric uid then
        (.resp 400 (some "UID must be numeric") none none, att)
      else
        match WINDOWS sec with
        | none => (.resp 400 (some "Invalid section") none none, att)
        | some w =>
          if devBypassTime ≠ some "true" then
            if weekday ≠ "Fri" then
              (.resp 400 (some "Attendance can only be submitted on Fridays") none none, att)
            else if hour * 60 + minute < w.start * 60 ∨ w.endH * 60 ≤ hour * 60 + minute then
              (.resp 400 (some (windowErrorMsg sec w)) none none, att)
            else
              submitDbPhase uid sec dateStr nowISO roster att fault
          else
            submitDbPhase uid sec dateStr nowISO roster att fault

/-! ## Helper lemmas -/

/-- Unfolding one record's contribution to the `sectionData` tallies. -/
lemma sectionDataStep_apply (m : String → String → Nat) (a : AttendanceRecord)
    (s d : String) :
    sectionDataStep m a s d =
      m s d + (if a.section' ∈ sectionCodes ∧ s = a.section' ∧ d = a.date then 1 else 0) := by
  unfold sectionDataStep
  by_cases hc : a.section' ∈ sectionCodes
  · simp only [if_pos hc]
    by_cases hm : s = a.section' ∧ d = a.date
    · simp [hc, hm]
    · simp [hc, hm]
  · simp [hc]

/-- The `sectionData` fold counts matching records on top of its accumulator. -/
lemma foldl_sectionDataStep (att : List AttendanceRecord) (m : String → String → Nat)
    (s d : String) :
    (att.foldl sectionDataStep m) s d =
      m s d + att.countP
        (fun a => decide (a.section' ∈ sectionCodes ∧ s = a.section' ∧ d = a.date)) := by
  induction att generalizing m with
  | nil => simp
  | cons a t ih =>
    simp only [List.foldl_cons, List.countP_cons]
    rw [ih, sectionDataStep_apply]
    by_cases h : a.section' ∈ sectionCodes ∧ s = a.section' ∧ d = a.date
    · rw [if_pos h, decide_eq_true h]
      simp only [if_true, eq_self_iff_true]
      omega
    · rw [if_neg h, decide_eq_false h]
      simp only [Bool.false_eq_true, if_false]
      omega

/-- `sectionData att s d` is the number of records with section `s` and date
`d` when `s` is a configured code, and `0` otherwise. -/
lemma sectionData_eq (att : List AttendanceRecord) (s d : String) :
    sectionData att s d =
      if s ∈ sectionCodes then (att.filter (fun a => a.section' = s ∧ a.date = d)).length
      else 0 := by
  unfold sectionData
  rw [foldl_sectionDataStep]
  by_cases hs : s ∈ sectionCodes
  · rw [if_pos hs, ← List.countP_eq_length_filter]
    simp only [Nat.zero_add]
    apply List.countP_congr
    intro a _
    simp only [decide_eq_true_eq]
    constructor
    · rintro ⟨-, h1, h2⟩; exact ⟨h1.symm, h2.symm⟩
    · rintro ⟨h1, h2⟩; exact ⟨h1 ▸ hs, h1.symm, h2.symm⟩
  · rw [if_neg hs]
    simp only [Nat.zero_add, List.countP_eq_zero]
    intro a _
    simp only [decide_eq_true_eq]
    rintro ⟨hmem, hs', -⟩
    exact hs (by rw [hs']; exact hmem)

/-- Membership in the sorted date list. -/
lemma mem_dates {att : List AttendanceRecord} {d : String} :
    d ∈ dates att ↔ ∃ a ∈ att, a.date = d := by
  unfold dates
  rw [List.mem_insertionSort, List.mem_dedup, List.mem_map]

/-- The sorted date list is sorted. -/
lemma dates_sorted (att : List AttendanceRecord) :
    (dates att).Sorted (fun a b => a ≤ b) :=
  List.sorted_insertionSort _ _

/-- The sorted date list has no duplicates. -/
lemma dates_nodup (att : List AttendanceRecord) : (dates att).Nodup :=
  ((List.perm_insertionSort _ _).nodup_iff).mpr (List.nodup_dedup _)

/-- A string with no `'|'` character; the attendance keys are unambiguous on
such strings. -/
def pipeFree (s : String) : Prop := '|' ∉ s.data

instance (s : String) : Decidable (pipeFree s) := by
  unfold pipeFree; infer_instance

/-- Splitting a character list at a separator absent from both prefixes is
unambiguous. -/
lemma append_pipe_inj : ∀ {xs₁ xs₂ : List Char} {ys₁ ys₂ : List Char},
    '|' ∉ xs₁ → '|' ∉ xs₂ →
    xs₁ ++ '|' :: ys₁ = xs₂ ++ '|' :: ys₂ → xs₁ = xs₂ ∧ ys₁ = ys₂ := by
  intro xs₁
  induction xs₁ with
  | nil =>
    intro xs₂ ys₁ ys₂ _ h₂ heq
    cases xs₂ with
    | nil => simpa using heq
    | cons c t =>
      simp only [List.nil_append, List.cons_append, List.cons.injEq] at heq
      exact absurd (heq.1 ▸ List.mem_cons_self c t) h₂
  | cons c t ih =>
    intro xs₂ ys₁ ys₂ h₁ h₂ heq
    cases xs₂ with
    | nil =>
      simp only [List.cons_append, List.nil_append, List.cons.injEq] at heq
      exact absurd (heq.1 ▸ List.mem_cons_self c t) h₁
    | cons c' t' =>
      simp only [List.cons_append, List.cons.injEq] at heq
      obtain ⟨rfl, heq⟩ := heq
      have := ih (fun h => h₁ (List.mem_cons_of_mem _ h))
        (fun h => h₂ (List.mem_cons_of_mem _ h)) heq
      exact ⟨by rw [this.1], this.2⟩

/-- On pipe-free identities the attendance key determines the `(uid, date)`
pair. -/
lemma attKey_inj {u₁ d₁ u₂ d₂ : String} (h₁ : pipeFree u₁) (h₂ : pipeFree u₂) :
    attKey u₁ d₁ = attKey u₂ d₂ ↔ u₁ = u₂ ∧ d₁ = d₂ := by
  constructor
  · intro h
    have hdata : u₁.data ++ '|' :: d₁.data = u₂.data ++ '|' :: d₂.data := by
      have := congrArg String.data h
      simpa [attKey, String.data_append] using this
    have := append_pipe_inj h₁ h₂ hdata
    exact ⟨String.ext this.1, String.ext this.2⟩
  · rintro ⟨rfl, rfl⟩; rfl

/-- With pipe-free identities, set membership of a key coincides with the
existence of a matching record. -/
lemma attHas_iff {att : List AttendanceRecord} {u d : String}
    (hu : pipeFree u) (hatt : ∀ a ∈ att, pipeFree a.uid) :
    attHas att (attKey u d) = true ↔ ∃ a ∈ att, a.uid = u ∧ a.date = d := by
  unfold attHas attendedKeys
  rw [List.contains_iff_exists_mem_beq]
  simp only [List.mem_map, beq_iff_eq]
  constructor
  · rintro ⟨k, ⟨a, ha, rfl⟩, hk⟩
    have := (attKey_inj hu (hatt a ha)).mp hk
    exact ⟨a, ha, this.1.symm, this.2.symm⟩
  · rintro ⟨a, ha, h1, h2⟩
    exact ⟨attKey a.uid a.date, ⟨a, ha, rfl⟩, by rw [h1, h2]⟩

/-- Complement counting for a filtered list. -/
lemma length_filter_not_eq {α : Type} (l : List α) (p : α → Bool) :
    (l.filter (fun x => !(p x))).length = l.length - (l.filter p).length := by
  induction l with
  | nil => simp
  | cons a t ih =>
    have hle : (t.filter p).length ≤ t.length := List.length_filter_le _ _
    cases h : p a
    · simp [List.filter_cons, h, ih]
      omega
    · simp [List.filter_cons, h, ih]

/-- Under the store's invariants (every record has a roster entry of the same
section, and `(uid, date)` pairs are unique), a single date's present-count
for a section never exceeds that section's roster size. -/
lemma count_le_rosterTotals {roster : List Student} {att : List AttendanceRecord}
    (hmatch : ∀ a ∈ att, ∃ s ∈ roster, s.uid = a.uid ∧ s.section' = a.section')
    (hkeys : (att.map (fun a => (a.uid, a.date))).Nodup)
    (c d : String) :
    (att.filter (fun a => a.section' = c ∧ a.date = d)).length ≤ rosterTotals roster c := by
  set L := att.filter (fun a => a.section' = c ∧ a.date = d) with hL
  have hsub : List.Sublist L att := List.filter_sublist att
  have hpairs : (L.map (fun a => (a.uid, a.date))).Nodup :=
    (hsub.map (fun a => (a.uid, a.date))).nodup hkeys
  have hdateL : ∀ a ∈ L, a.date = d := by
    intro a ha
    have := List.of_mem_filter ha
    simp only [decide_eq_true_eq] at this
    exact this.2
  have hnodupU : (L.map (fun a => a.uid)).Nodup := by
    have : L.map (fun a => a.uid) = (L.map (fun a => (a.uid, a.date))).map Prod.fst := by
      simp [List.map_map]
    rw [this]
    apply hpairs.map_on
    intro x hx y hy hfst
    obtain ⟨ax, hax, rfl⟩ := List.mem_map.mp hx
    obtain ⟨ay, hay, rfl⟩ := List.mem_map.mp hy
    simp only at hfst ⊢
    rw [hfst, hdateL ax hax, hdateL ay hay]
  have hsubset : (L.map (fun a => a.uid)) ⊆
      ((roster.filter (fun s => s.section' = c)).map (fun s => s.uid)) := by
    intro u hu
    obtain ⟨a, ha, rfl⟩ := List.mem_map.mp hu
    have haAtt : a ∈ att := hsub.subset ha
    have hsec : a.section' = c := by
      have := List.of_mem_filter ha
      simp only [decide_eq_true_eq] at this
      exact this.1
    obtain ⟨s, hs, hsu, hss⟩ := hmatch a haAtt
    refine List.mem_map.mpr ⟨s, List.mem_filter.mpr ⟨hs, ?_⟩, hsu⟩
    simp [hss, hsec]
  calc L.length = (L.map (fun a => a.uid)).length := (List.length_map _ _).symm
    _ ≤ ((roster.filter (fun s => s.section' = c)).map (fun s => s.uid)).length :=
        (List.subperm_of_subset hnodupU hsubset).length_le
    _ = rosterTotals roster c := by rw [List.length_map]; rfl

/-- With pipe-free identities, a student's reported absence count is the
number of dates minus the number of dates for which a matching record
exists. -/
lemma absencesOf_eq_sub {att : List AttendanceRecord} {u : String}
    (hu : pipeFree u) (hatt : ∀ a ∈ att, pipeFree a.uid) (ds : List String) :
    absencesOf att ds u =
      ds.length - (ds.filter (fun d => ∃ a ∈ att, a.uid = u ∧ a.date = d)).length := by
  unfold absencesOf
  have hpt : ∀ d ∈ ds, (attHas att (attKey u d)) =
      decide (∃ a ∈ att, a.uid = u ∧ a.date = d) := by
    intro d _
    by_cases hex : ∃ a ∈ att, a.uid = u ∧ a.date = d
    · rw [(attHas_iff hu hatt).mpr hex, decide_eq_true hex]
    · rw [decide_eq_false hex]
      rw [← Bool.not_eq_true]
      intro h
      exact hex ((attHas_iff hu hatt).mp h)
  rw [length_filter_not_eq, List.filter_congr hpt]

/-! ## Claims -/

/-- C6: the aggregator's `dates` output is the distinct set of dates of the
attendance records, sorted ascending lexicographically; for each configured
code, `sections[code]` has the same length as `dates` and its `i`-th entry is
the count of records with that section and the `i`-th date; `rosterTotals`
is the section's roster size. -/
theorem C6_report_shape (att : List AttendanceRecord) (roster : List Student) :
    (dates att).Sorted (fun a b => a ≤ b) ∧
    (dates att).Nodup ∧
    (∀ d : String, d ∈ dates att ↔ ∃ a ∈ att, a.date = d) ∧
    (∀ c ∈ sectionCodes,
      (sections att c).length = (dates att).length ∧
      (∀ (i : Nat) (d : String), (dates att)[i]? = some d →
        (sections att c)[i]? =
          some ((att.filter (fun a => a.section' = c ∧ a.date = d)).length)) ∧
      rosterTotals roster c = (roster.filter (fun s => s.section' = c)).length) := by
  refine ⟨dates_sorted att, dates_nodup att, fun d => mem_dates, ?_⟩
  intro c hc
  refine ⟨List.length_map _ _, ?_, rfl⟩
  intro i d hd
  unfold sections
  rw [List.getElem?_map, hd, Option.map_some']
  rw [sectionData_eq, if_pos hc]

/-- C6 witness: the shape facts instantiated on a concrete two-record
history with one distinct date. -/
theorem C6_report_shape_witness :
    (sections [AttendanceRecord.mk "7" "2026-02-06" "0202" "",
               AttendanceRecord.mk "8" "2026-02-06" "0202" ""] "0202")[0]? =
      some 2 := by
  have h := (C6_report_shape
    [AttendanceRecord.mk "7" "2026-02-06" "0202" "",
     AttendanceRecord.mk "8" "2026-02-06" "0202" ""] []).2.2.2 "0202" (by decide)
  have h2 := h.2.1 0 "2026-02-06" (by decide)
  rw [h2]
  decide

/-- C1 counterexample: the claim quantifies over every roster and attendance
input, but an attendance record with no roster entry makes
`sum(sections[code])` exceed `rosterTotals[code] * len(dates)`:
with an empty roster and one record for section `"0201"`, the sum is `1`
while the bound is `0`. -/
theorem C1_counterexample :
    ¬ ((sections [AttendanceRecord.mk "1" "2026-02-06" "0201" ""] "0201").sum ≤
        rosterTotals ([] : List Student) "0201" *
          (dates [AttendanceRecord.mk "1" "2026-02-06" "0201" ""]).length) := by
  decide

/-- C1 (amended): under the invariants the Submission Validator maintains —
every attendance record's identity belongs to a roster student of the same
section, `(identity, date)` pairs are unique, and identities contain no `'|'`
separator — the sum of per-date present-counts in `sections[code]` is at most
`rosterTotals[code] * len(dates)`, and every reported absence count equals the
number of dates minus the number of dates the student attended. -/
theorem C1_amended (roster : List Student) (att : List AttendanceRecord)
    (c : String) (hc : c ∈ sectionCodes)
    (hmatch : ∀ a ∈ att, ∃ s ∈ roster, s.uid = a.uid ∧ s.section' = a.section')
    (hkeys : (att.map (fun a => (a.uid, a.date))).Nodup)
    (hpipeR : ∀ s ∈ roster, pipeFree s.uid)
    (hpipeA : ∀ a ∈ att, pipeFree a.uid) :
    (sections att c).sum ≤ rosterTotals roster c * (dates att).length ∧
    (∀ e ∈ studentsBySection roster att c,
      e.absences = (dates att).length -
        ((dates att).filter (fun d => ∃ a ∈ att, a.uid = e.uid ∧ a.date = d)).length) := by
  constructor
  · have hbound : ∀ x ∈ sections att c, x ≤ rosterTotals roster c := by
      intro x hx
      obtain ⟨d, _, rfl⟩ := List.mem_map.mp hx
      rw [sectionData_eq, if_pos hc]
      exact count_le_rosterTotals hmatch hkeys c d
    have h := List.sum_le_card_nsmul (sections att c) (rosterTotals roster c) hbound
    have hlen : (sections att c).length = (dates att).length := List.length_map _ _
    rw [hlen] at h
    simpa [smul_eq_mul, Nat.mul_comm] using h
  · intro e he
    unfold studentsBySection rosterEntries at he
    rw [List.mem_insertionSort] at he
    obtain ⟨s, hs, rfl⟩ := List.mem_map.mp he
    have hsu : pipeFree s.uid := hpipeR s (List.mem_of_mem_filter hs)
    exact absencesOf_eq_sub hsu hpipeA (dates att)

/-- C1 witness: the amended bound and absence identity on a concrete
matched roster and history. -/
theorem C1_amended_witness :
    (sections [AttendanceRecord.mk "1" "2026-02-06" "0201" ""] "0201").sum ≤
      rosterTotals [Student.mk "1" "one" "0201" none] "0201" *
        (dates [AttendanceRecord.mk "1" "2026-02-06" "0201" ""]).length := by
  have h := C1_amended [Student.mk "1" "one" "0201" none]
    [AttendanceRecord.mk "1" "2026-02-06" "0201" ""] "0201"
    (by decide) (by decide) (by decide) (by decide) (by decide)
  exact h.1

/-- C2 counterexample: an orphaned attendance record is not excluded from all
section aggregates — it is counted in `sections[code]`.  With an empty roster,
a single record for section `"0201"` changes the `sections` output from `[]`
to `[1]`. -/
theorem C2_counterexample :
    sections [AttendanceRecord.mk "1" "2026-02-06" "0201" ""] "0201" ≠
      sections ([] : List AttendanceRecord) "0201" ∧
    sections [AttendanceRecord.mk "1" "2026-02-06" "0201" ""] "0201" = [1] := by
  constructor
  · decide
  · decide

/-- C2 (amended): an orphaned attendance record (identity with no roster
entry) is silently excluded from `rosterTotals`, `studentsBySection` and
`details` — its identity appears in none of them and `rosterTotals` is
unchanged — and causes no error, but it does contribute to the
`sections[code]` count of its (configured) section and its date enters the
global date list. -/
theorem C2_amended (roster : List Student) (att : List AttendanceRecord)
    (r : AttendanceRecord) (horph : ∀ s ∈ roster, s.uid ≠ r.uid) :
    (statsReport roster (att ++ [r])).rosterTotals = (statsReport roster att).rosterTotals ∧
    (∀ c : String, ∀ e ∈ studentsBySection roster (att ++ [r]) c, e.uid ≠ r.uid) ∧
    (∀ d c : String,
      (∀ p ∈ (detailFor roster (att ++ [r]) d c).present, p.uid ≠ r.uid) ∧
      (∀ q ∈ (detailFor roster (att ++ [r]) d c).absent, q.uid ≠ r.uid)) ∧
    (r.section' ∈ sectionCodes →
      sectionData (att ++ [r]) r.section' r.date = sectionData att r.section' r.date + 1) ∧
    r.date ∈ dates (att ++ [r]) := by
  refine ⟨rfl, ?_, ?_, ?_, ?_⟩
  · intro c e he
    unfold studentsBySection rosterEntries at he
    rw [List.mem_insertionSort] at he
    obtain ⟨s, hs, rfl⟩ := List.mem_map.mp he
    exact horph s (List.mem_of_mem_filter hs)
  · intro d c
    constructor
    · intro p hp
      obtain ⟨s, hs, rfl⟩ := List.mem_map.mp hp
      exact horph s (List.mem_of_mem_filter (List.mem_of_mem_filter hs))
    · intro q hq
      obtain ⟨s, hs, rfl⟩ := List.mem_map.mp hq
      exact horph s (List.mem_of_mem_filter (List.mem_of_mem_filter hs))
  · intro hc
    rw [sectionData_eq, sectionData_eq, if_pos hc, if_pos hc, List.filter_append]
    have : [r].filter (fun a => a.section' = r.section' ∧ a.date = r.date) = [r] := by
      simp
    rw [this, List.length_append, List.length_singleton]
  · exact mem_dates.mpr ⟨r, List.mem_append_right att (List.mem_singleton_self r), rfl⟩

/-- C2 witness: the amended exclusion facts on a concrete input with one
orphaned record and a one-student roster. -/
theorem C2_amended_witness :
    sectionData ([] ++ [AttendanceRecord.mk "9" "2026-02-06" "0201" ""]) "0201" "2026-02-06" =
      sectionData [] "0201" "2026-02-06" + 1 := by
  have h := C2_amended [Student.mk "1" "one" "0201" none] []
    (AttendanceRecord.mk "9" "2026-02-06" "0201" "") (by decide)
  exact h.2.2.2.1 (by decide)

/-- C7: `studentsBySection[code]` lists exactly the section's roster students
(as a permutation of the roster-order entry list), ordered by absence count
descending, with ties kept in original roster order: for every absence count
`k`, the entries with count `k` appear exactly as they do in roster order. -/
theorem C7_absence_ranking (roster : List Student) (att : List AttendanceRecord)
    (c : String) :
    List.Perm (studentsBySection roster att c) (rosterEntries roster att c) ∧
    (studentsBySection roster att c).Sorted (fun a b => b.absences ≤ a.absences) ∧
    (∀ k : Nat,
      (studentsBySection roster att c).filter (fun e => e.absences = k) =
        (rosterEntries roster att c).filter (fun e => e.absences = k)) := by
  refine ⟨List.perm_insertionSort byAbsencesDesc _,
    List.sorted_insertionSort byAbsencesDesc _, ?_⟩
  intro k
  set p : StudentEntry → Bool := fun e => decide (e.absences = k) with hp
  set S := (rosterEntries roster att c).filter p with hS
  have hmemk : ∀ e ∈ S, e.absences = k := by
    intro e he
    have := List.of_mem_filter he
    rwa [hp, decide_eq_true_eq] at this
  have hS1 : S.Pairwise byAbsencesDesc := by
    apply List.pairwise_of_forall_mem_list
    intro a ha b hb
    unfold byAbsencesDesc
    rw [hmemk a ha, hmemk b hb]
  have hsub : List.Sublist S (studentsBySection roster att c) :=
    List.sublist_insertionSort hS1 (List.filter_sublist _)
  have hfil : S.filter p = S := List.filter_eq_self.mpr (fun e he => by
    rw [hp, decide_eq_true_eq]
    exact hmemk e he)
  have hsubf : List.Sublist S ((studentsBySection roster att c).filter p) := by
    have := hsub.filter p
    rwa [hfil] at this
  have hpermf : List.Perm ((studentsBySection roster att c).filter p) S :=
    (List.perm_insertionSort byAbsencesDesc (rosterEntries roster att c)).filter p
  exact (hsubf.eq_of_length hpermf.length_eq.symm).symm

/-- C8: aggregation is deterministic — identical roster and attendance
collections produce identical reports. -/
theorem C8_deterministic (s₁ s₂ : List Student) (a₁ a₂ : List AttendanceRecord)
    (hs : s₁ = s₂) (ha : a₁ = a₂) :
    statsReport s₁ a₁ = statsReport s₂ a₂ := by
  rw [hs, ha]

/-- C8 witness: determinism at a concrete roster and history. -/
theorem C8_deterministic_witness :
    statsReport [Student.mk "1" "one" "0201" none]
        [AttendanceRecord.mk "1" "2026-02-06" "0201" ""] =
      statsReport [Student.mk "1" "one" "0201" none]
        [AttendanceRecord.mk "1" "2026-02-06" "0201" ""] :=
  C8_deterministic _ _ _ _ rfl rfl

/-- C9: a stats request whose credentials are missing (no `Basic ` header) or
do not match the configured admin user and password yields a 401 with the
`WWW-Authenticate` challenge, and the result is the same for every store
content — the handler performs no store reads before the credential check
succeeds. -/
theorem C9_auth_gate (decode : String → String) (authHeader : Option String)
    (adminUser adminPass : String)
    (s₁ s₂ : List Student) (a₁ a₂ : List AttendanceRecord)
    (hbad : ¬ (authHeader.getD "").startsWith "Basic " ∨
      ((decode ((authHeader.getD "").drop 6)).splitOn ":").headD "" ≠ adminUser ∨
      String.intercalate ":" (((decode ((authHeader.getD "").drop 6)).splitOn ":").tail)
        ≠ adminPass) :
    statsHandler decode authHeader adminUser adminPass s₁ a₁ =
      statsHandler decode authHeader adminUser adminPass s₂ a₂ ∧
    (∃ body : String, statsHandler decode authHeader adminUser adminPass s₁ a₁ =
      StatsResult.unauthorized 401 challengeHeader body) := by
  simp only [statsHandler]
  by_cases hstart : (authHeader.getD "").startsWith "Basic "
  · have hcred : ((decode ((authHeader.getD "").drop 6)).splitOn ":").headD "" ≠ adminUser ∨
        String.intercalate ":" (((decode ((authHeader.getD "").drop 6)).splitOn ":").tail)
          ≠ adminPass := by
      rcases hbad with h | h | h
      · exact absurd hstart h
      · exact Or.inl h
      · exact Or.inr h
    rw [if_neg (not_not_intro hstart), if_neg (not_not_intro hstart),
      if_pos hcred, if_pos hcred]
    exact ⟨rfl, "Invalid credentials", rfl⟩
  · rw [if_pos hstart, if_pos hstart]
    exact ⟨rfl, "Unauthorized", rfl⟩

/-- C9 witness: a request with no authorization header gets the 401 challenge
and the same response for two different store contents. -/
theorem C9_auth_gate_witness :
    statsHandler (fun s => s) none "admin" "pw" [] [] =
      statsHandler (fun s => s) none "admin" "pw"
        [Student.mk "1" "one" "0201" none]
        [AttendanceRecord.mk "1" "2026-02-06" "0201" ""] ∧
    (∃ body : String, statsHandler (fun s => s) none "admin" "pw" [] [] =
      StatsResult.unauthorized 401 challengeHeader body) :=
  C9_auth_gate (fun s => s) none "admin" "pw" _ _ _ _ (Or.inl (by decide))

/-- A submission that passes all input and time validation reaches the
database phase unchanged: with both fields present, a numeric identity, a
configured section, and either the bypass set or a Friday time inside the
window, the handler is the database phase. -/
lemma submitHandler_pastTime
    (uid sec : String) (w : Window) (weekday : String) (hour minute : Nat)
    (dateStr nowISO : String) (devBypassTime : Option String)
    (roster : List Student) (att : List AttendanceRecord) (fault : Option StoreErr)
    (huid : uid ≠ "") (hnum : uidNumeric uid = true) (hsec : sec ≠ "")
    (hw : WINDOWS sec = some w)
    (htime : devBypassTime = some "true" ∨
      (weekday = "Fri" ∧ w.start * 60 ≤ hour * 60 + minute ∧
        hour * 60 + minute < w.endH * 60)) :
    submitHandler "POST" (some (some uid, some sec)) weekday hour minute dateStr
        devBypassTime nowISO roster att fault =
      submitDbPhase uid sec dateStr nowISO roster att fault := by
  have hms : ¬ (uid = "" ∨ sec = "") := by
    rintro (h | h)
    · exact huid h
    · exact hsec h
  rcases htime with hbp | ⟨hf, h1, h2⟩
  · subst hbp
    simp [submitHandler, hms, hnum, hw]
  · subst hf
    have hwin : ¬ (hour * 60 + minute < w.start * 60 ∨
        w.endH * 60 ≤ hour * 60 + minute) := by omega
    by_cases hbp : devBypassTime = some "true"
    · subst hbp
      simp [submitHandler, hms, hnum, hw]
    · simp [submitHandler, hms, hnum, hw, hbp, hwin]

/-- C3: for a valid section with bypass disabled on a Friday, the time-window
check accepts exactly the minutes in `[start*60, end*60)`: inside the window
the handler proceeds to the database phase, outside it (before the start or at
or after the end) it returns the window error, whose message contains the
section code and the configured start and end hours. -/
theorem C3_window_check
    (uid sec : String) (w : Window) (hour minute : Nat)
    (dateStr nowISO : String) (devBypassTime : Option String)
    (roster : List Student) (att : List AttendanceRecord) (fault : Option StoreErr)
    (huid : uid ≠ "") (hnum : uidNumeric uid = true) (hsec : sec ≠ "")
    (hw : WINDOWS sec = some w) (hbp : devBypassTime ≠ some "true") :
    let res := submitHandler "POST" (some (some uid, some sec)) "Fri" hour minute dateStr
        devBypassTime nowISO roster att fault
    ((w.start * 60 ≤ hour * 60 + minute ∧ hour * 60 + minute < w.endH * 60) →
      res = submitDbPhase uid sec dateStr nowISO roster att fault) ∧
    ((hour * 60 + minute < w.start * 60 ∨ w.endH * 60 ≤ hour * 60 + minute) →
      res = (.resp 400 (some (windowErrorMsg sec w)) none none, att)) ∧
    (∃ pre mid₁ mid₂ post : String,
      windowErrorMsg sec w =
        pre ++ sec ++ mid₁ ++ toString w.start ++ mid₂ ++ toString w.endH ++ post) := by
  refine ⟨?_, ?_, ?_⟩
  · intro h
    exact submitHandler_pastTime uid sec w "Fri" hour minute dateStr nowISO
      devBypassTime roster att fault huid hnum hsec hw (Or.inr ⟨rfl, h.1, h.2⟩)
  · intro h
    have hms : ¬ (uid = "" ∨ sec = "") := by
      rintro (h' | h')
      · exact huid h'
      · exact hsec h'
    simp [submitHandler, hms, hnum, hw, hbp, h]
  · exact ⟨"Outside attendance window for section ", " (", ":00–", ":00 ET)", rfl⟩

/-- C3 witness: for section `"0201"` (window 12–13) a Friday submission at
exactly 12:00 reaches the database phase, and one at exactly 13:00 is
rejected with the window error. -/
theorem C3_window_check_witness :
    (submitHandler "POST" (some (some "1", some "0201")) "Fri" 12 0 "2026-02-06"
        none "TS" [] [] none =
      submitDbPhase "1" "0201" "2026-02-06" "TS" [] [] none) ∧
    (submitHandler "POST" (some (some "1", some "0201")) "Fri" 13 0 "2026-02-06"
        none "TS" [] [] none =
      (.resp 400 (some (windowErrorMsg "0201" (Window.mk 12 13))) none none, [])) := by
  constructor
  · exact (C3_window_check "1" "0201" (Window.mk 12 13) 12 0 "2026-02-06" "TS" none
      [] [] none (by decide) (by decide) (by decide) (by decide) (by decide)).1
      (by decide)
  · exact (C3_window_check "1" "0201" (Window.mk 12 13) 13 0 "2026-02-06" "TS" none
      [] [] none (by decide) (by decide) (by decide) (by decide) (by decide)).2.1
      (by decide)

/-- C4: for a submission passing all validation, exactly one record
`{uid, date, section, timestamp}` is appended and the handler returns success
with the computed date; if the insert hits the `(uid, date)` uniqueness
constraint the handler returns the 409 conflict and the collection is
unchanged (no second record for the pair); any other store failure is
surfaced unmodified. -/
theorem C4_insert_outcomes
    (uid sec : String) (w : Window) (student : Student) (weekday : String)
    (hour minute : Nat) (dateStr nowISO : String) (devBypassTime : Option String)
    (roster : List Student) (att : List AttendanceRecord) (fault : Option StoreErr)
    (huid : uid ≠ "") (hnum : uidNumeric uid = true) (hsec : sec ≠ "")
    (hw : WINDOWS sec = some w)
    (htime : devBypassTime = some "true" ∨
      (weekday = "Fri" ∧ w.start * 60 ≤ hour * 60 + minute ∧
        hour * 60 + minute < w.endH * 60))
    (hstu : roster.find? (fun s => s.uid = uid) = some student)
    (hmatch : student.section' = sec) :
    let res := submitHandler "POST" (some (some uid, some sec)) weekday hour minute
        dateStr devBypassTime nowISO roster att fault
    (fault = none → (¬ ∃ a ∈ att, a.uid = uid ∧ a.date = dateStr) →
      res = (.resp 200 none (some "Attendance recorded successfully!") (some dateStr),
        att ++ [AttendanceRecord.mk uid dateStr sec nowISO])) ∧
    (fault = none → (∃ a ∈ att, a.uid = uid ∧ a.date = dateStr) →
      res = (.resp 409 (some "Attendance already submitted for today") none none, att)) ∧
    (∀ e : StoreErr, fault = some e → e.code ≠ some 11000 →
      res = (.thrown e, att)) := by
  have hdb : submitHandler "POST" (some (some uid, some sec)) weekday hour minute
      dateStr devBypassTime nowISO roster att fault =
      submitDbPhase uid sec dateStr nowISO roster att fault :=
    submitHandler_pastTime uid sec w weekday hour minute dateStr nowISO
      devBypassTime roster att fault huid hnum hsec hw htime
  refine ⟨?_, ?_, ?_⟩
  · intro hf hnodup
    rw [hdb]
    have hany : att.any (fun a => a.uid = uid ∧ a.date = dateStr) = false := by
      rw [← Bool.not_eq_true, List.any_eq_true]
      simp only [decide_eq_true_eq]
      exact hnodup
    subst hf
    simp [submitDbPhase, hstu, hmatch, insertAttendance]
    rw [if_neg hnodup]
  · intro hf hdup
    rw [hdb]
    subst hf
    simp [submitDbPhase, hstu, hmatch, insertAttendance]
    rw [if_pos hdup]
    rfl
  · intro e hf hcode
    rw [hdb]
    subst hf
    simp [submitDbPhase, hstu, hmatch, insertAttendance, hcode]

/-- C4 witness: success appends exactly the one record; resubmitting the same
pair yields the 409 conflict with the store unchanged; an injected
infrastructure failure is rethrown unmodified. -/
theorem C4_insert_outcomes_witness :
    (submitHandler "POST" (some (some "1", some "0201")) "Fri" 12 30 "2026-02-06"
        none "TS" [Student.mk "1" "one" "0201" none] [] none =
      (.resp 200 none (some "Attendance recorded successfully!") (some "2026-02-06"),
        [AttendanceRecord.mk "1" "2026-02-06" "0201" "TS"])) ∧
    (submitHandler "POST" (some (some "1", some "0201")) "Fri" 12 30 "2026-02-06"
        none "TS" [Student.mk "1" "one" "0201" none]
        [AttendanceRecord.mk "1" "2026-02-06" "0201" "TS"] none =
      (.resp 409 (some "Attendance already submitted for today") none none,
        [AttendanceRecord.mk "1" "2026-02-06" "0201" "TS"])) ∧
    (submitHandler "POST" (some (some "1", some "0201")) "Fri" 12 30 "2026-02-06"
        none "TS" [Student.mk "1" "one" "0201" none] []
        (some (StoreErr.mk none "connection reset")) =
      (.thrown (StoreErr.mk none "connection reset"), [])) := by
  refine ⟨?_, ?_, ?_⟩
  · exact (C4_insert_outcomes "1" "0201" (Window.mk 12 13)
      (Student.mk "1" "one" "0201" none) "Fri" 12 30 "2026-02-06" "TS" none
      [Student.mk "1" "one" "0201" none] [] none
      (by decide) (by decide) (by decide) (by decide)
      (Or.inr (by refine ⟨rfl, by decide, by decide⟩)) (by decide) (by decide)).1
      rfl (by decide)
  · exact (C4_insert_outcomes "1" "0201" (Window.mk 12 13)
      (Student.mk "1" "one" "0201" none) "Fri" 12 30 "2026-02-06" "TS" none
      [Student.mk "1" "one" "0201" none]
      [AttendanceRecord.mk "1" "2026-02-06" "0201" "TS"] none
      (by decide) (by decide) (by decide) (by decide)
      (Or.inr (by refine ⟨rfl, by decide, by decide⟩)) (by decide) (by decide)).2.1
      rfl (by decide)
  · exact (C4_insert_outcomes "1" "0201" (Window.mk 12 13)
      (Student.mk "1" "one" "0201" none) "Fri" 12 30 "2026-02-06" "TS" none
      [Student.mk "1" "one" "0201" none] []
      (some (StoreErr.mk none "connection reset"))
      (by decide) (by decide) (by decide) (by decide)
      (Or.inr (by refine ⟨rfl, by decide, by decide⟩)) (by decide) (by decide)).2.2
      (StoreErr.mk none "connection reset") rfl (by decide)

/-- C5: the validator applies its checks in order with fail-fast semantics —
missing/empty field, non-numeric identity, invalid section, wrong day,
outside window, identity not in roster, section mismatch — the first failing
check determines the error; each early rejection returns the same response
for every store content and leaves the attendance collection unchanged, so a
non-numeric identity in particular is rejected before any store access. -/
theorem C5_fail_fast
    (uidOpt secOpt : Option String) (weekday : String) (hour minute : Nat)
    (dateStr nowISO : String) (devBypassTime : Option String)
    (roster : List Student) (att : List AttendanceRecord) (fault : Option StoreErr) :
    let uid := uidOpt.getD ""
    let sec := secOpt.getD ""
    let res := submitHandler "POST" (some (uidOpt, secOpt)) weekday hour minute dateStr
        devBypassTime nowISO roster att fault
    ((uid = "" ∨ sec = "") →
      res = (.resp 400 (some "Missing UID or section") none none, att)) ∧
    (uid ≠ "" → sec ≠ "" → uidNumeric uid = false →
      res = (.resp 400 (some "UID must be numeric") none none, att)) ∧
    (uid ≠ "" → sec ≠ "" → uidNumeric uid = true → WINDOWS sec = none →
      res = (.resp 400 (some "Invalid section") none none, att)) ∧
    (∀ w : Window, uid ≠ "" → sec ≠ "" → uidNumeric uid = true → WINDOWS sec = some w →
      devBypassTime ≠ some "true" → weekday ≠ "Fri" →
      res = (.resp 400 (some "Attendance can only be submitted on Fridays") none none, att)) ∧
    (∀ w : Window, uid ≠ "" → sec ≠ "" → uidNumeric uid = true → WINDOWS sec = some w →
      devBypassTime ≠ some "true" → weekday = "Fri" →
      (hour * 60 + minute < w.start * 60 ∨ w.endH * 60 ≤ hour * 60 + minute) →
      res = (.resp 400 (some (windowErrorMsg sec w)) none none, att)) ∧
    (∀ w : Window, uid ≠ "" → sec ≠ "" → uidNumeric uid = true → WINDOWS sec = some w →
      (devBypassTime = some "true" ∨
        (weekday = "Fri" ∧ w.start * 60 ≤ hour * 60 + minute ∧
          hour * 60 + minute < w.endH * 60)) →
      roster.find? (fun s => s.uid = uid) = none →
      res = (.resp 400 (some "UID not found in roster") none none, att)) ∧
    (∀ (w : Window) (student : Student),
      uid ≠ "" → sec ≠ "" → uidNumeric uid = true → WINDOWS sec = some w →
      (devBypassTime = some "true" ∨
        (weekday = "Fri" ∧ w.start * 60 ≤ hour * 60 + minute ∧
          hour * 60 + minute < w.endH * 60)) →
      roster.find? (fun s => s.uid = uid) = some student → student.section' ≠ sec →
      res = (.resp 400 (some "Section does not match your registered section") none none, att)) := by
  set uid := uidOpt.getD "" with huid
  set sec := secOpt.getD "" with hsec
  have hbody : (some (uidOpt, secOpt) : Option (Option String × Option String)) =
      some (uidOpt, secOpt) := rfl
  refine ⟨?_, ?_, ?_, ?_, ?_, ?_, ?_⟩
  · intro h
    simp [submitHandler, ← huid, ← hsec, h]
  · intro h1 h2 h3
    have hms : ¬ (uid = "" ∨ sec = "") := by
      rintro (h | h)
      · exact h1 h
      · exact h2 h
    simp [submitHandler, ← huid, ← hsec, hms, h3]
  · intro h1 h2 h3 h4
    have hms : ¬ (uid = "" ∨ sec = "") := by
      rintro (h | h)
      · exact h1 h
      · exact h2 h
    simp [submitHandler, ← huid, ← hsec, hms, h3, h4]
  · intro w h1 h2 h3 h4 h5 h6
    have hms : ¬ (uid = "" ∨ sec = "") := by
      rintro (h | h)
      · exact h1 h
      · exact h2 h
    simp [submitHandler, ← huid, ← hsec, hms, h3, h4, h5, h6]
  · intro w h1 h2 h3 h4 h5 h6 h7
    have hms : ¬ (uid = "" ∨ sec = "") := by
      rintro (h | h)
      · exact h1 h
      · exact h2 h
    simp [submitHandler, ← huid, ← hsec, hms, h3, h4, h5, h6, h7]
  · intro w h1 h2 h3 h4 h5 h6
    clear_value uid sec
    rcases uidOpt with _ | u
    · rw [Option.getD_none] at huid
      exact absurd huid h1
    rcases secOpt with _ | sc
    · rw [Option.getD_none] at hsec
      exact absurd hsec h2
    rw [Option.getD_some] at huid hsec
    subst huid
    subst hsec
    rw [submitHandler_pastTime uid sec w weekday hour minute dateStr nowISO
      devBypassTime roster att fault h1 h3 h2 h4 h5]
    simp [submitDbPhase, h6]
  · intro w student h1 h2 h3 h4 h5 h6 h7
    clear_value uid sec
    rcases uidOpt with _ | u
    · rw [Option.getD_none] at huid
      exact absurd huid h1
    rcases secOpt with _ | sc
    · rw [Option.getD_none] at hsec
      exact absurd hsec h2
    rw [Option.getD_some] at huid hsec
    subst huid
    subst hsec
    rw [submitHandler_pastTime uid sec w weekday hour minute dateStr nowISO
      devBypassTime roster att fault h1 h3 h2 h4 h5]
    simp [submitDbPhase, h6, h7]

/-- C5 witness: the early rejections at concrete inputs — a missing section,
a non-numeric identity (with a non-empty store and an injected fault, showing
store-independence), an invalid section, a wrong day, and a roster miss. -/
theorem C5_fail_fast_witness :
    (submitHandler "POST" (some (some "1", none)) "Fri" 12 0 "2026-02-06" none "TS"
        [] [] none =
      (.resp 400 (some "Missing UID or section") none none, [])) ∧
    (submitHandler "POST" (some (some "12a", some "0201")) "Fri" 12 0 "2026-02-06"
        none "TS" [Student.mk "12a" "x" "0201" none] []
        (some (StoreErr.mk none "down")) =
      (.resp 400 (some "UID must be numeric") none none, [])) ∧
    (submitHandler "POST" (some (some "1", some "0299")) "Fri" 12 0 "2026-02-06"
        none "TS" [] [] none =
      (.resp 400 (some "Invalid section") none none, [])) ∧
    (submitHandler "POST" (some (some "1", some "0201")) "Thu" 12 0 "2026-02-05"
        none "TS" [] [] none =
      (.resp 400 (some "Attendance can only be submitted on Fridays") none none, [])) ∧
    (submitHandler "POST" (some (some "1", some "0201")) "Fri" 12 0 "2026-02-06"
        none "TS" [] [] none =
      (.resp 400 (some "UID not found in roster") none none, [])) := by
  refine ⟨?_, ?_, ?_, ?_, ?_⟩
  · exact (C5_fail_fast (some "1") none "Fri" 12 0 "2026-02-06" "TS" none [] [] none).1
      (by decide)
  · exact (C5_fail_fast (some "12a") (some "0201") "Fri" 12 0 "2026-02-06" "TS" none
      [Student.mk "12a" "x" "0201" none] [] (some (StoreErr.mk none "down"))).2.1
      (by decide) (by decide) (by decide)
  · exact (C5_fail_fast (some "1") (some "0299") "Fri" 12 0 "2026-02-06" "TS" none
      [] [] none).2.2.1 (by decide) (by decide) (by decide) (by decide)
  · exact (C5_fail_fast (some "1") (some "0201") "Thu" 12 0 "2026-02-05" "TS" none
      [] [] none).2.2.2.1 (Window.mk 12 13) (by decide) (by decide) (by decide)
      (by decide) (by decide) (by decide)
  · exact (C5_fail_fast (some "1") (some "0201") "Fri" 12 0 "2026-02-06" "TS" none
      [] [] none).2.2.2.2.2.1 (Window.mk 12 13) (by decide) (by decide) (by decide)
      (by decide) (Or.inr ⟨rfl, by decide, by decide⟩) (by decide)

/-- Two booleans agreeing on truth are equal. -/
lemma bool_eq_of_true_iff {a b : Bool} (h : a = true ↔ b = true) : a = b := by
  cases a <;> cases b <;> simp_all

/-- Appending one record with a fresh date: a student's absence count grows
by one, except for the record's own identity, whose membership check now hits
the new date's key. -/
lemma absencesOf_append_fresh {att : List AttendanceRecord} {r : AttendanceRecord}
    {u : String}
    (hnew : ∀ a ∈ att, a.date ≠ r.date)
    (hpipeA : ∀ a ∈ att, pipeFree a.uid) (hpipeU : pipeFree r.uid)
    (hu : pipeFree u) :
    absencesOf (att ++ [r]) (dates (att ++ [r])) u =
      absencesOf att (dates att) u + (if u = r.uid then 0 else 1) := by
  have hpipeA' : ∀ a ∈ att ++ [r], pipeFree a.uid := by
    intro a ha
    rcases List.mem_append.mp ha with h | h
    · exact hpipeA a h
    · rw [List.mem_singleton] at h
      rw [h]
      exact hpipeU
  have hdnotmem : r.date ∉ dates att := by
    intro hmem
    obtain ⟨a, ha, hda⟩ := mem_dates.mp hmem
    exact hnew a ha hda
  have hcons : (r.date :: dates att).Nodup :=
    List.nodup_cons.mpr ⟨hdnotmem, dates_nodup att⟩
  have hperm : List.Perm (dates (att ++ [r])) (r.date :: dates att) := by
    rw [List.perm_ext_iff_of_nodup (dates_nodup (att ++ [r])) hcons]
    intro x
    rw [mem_dates, List.mem_cons, mem_dates]
    constructor
    · rintro ⟨a, ha, rfl⟩
      rcases List.mem_append.mp ha with h | h
      · exact Or.inr ⟨a, h, rfl⟩
      · rw [List.mem_singleton] at h
        subst h
        exact Or.inl rfl
    · rintro (rfl | ⟨a, ha, rfl⟩)
      · exact ⟨r, List.mem_append_right _ (List.mem_singleton_self r), rfl⟩
      · exact ⟨a, List.mem_append_left _ ha, rfl⟩
  have hstep1 : absencesOf (att ++ [r]) (dates (att ++ [r])) u =
      absencesOf (att ++ [r]) (r.date :: dates att) u := by
    unfold absencesOf
    rw [← List.countP_eq_length_filter, ← List.countP_eq_length_filter, hperm.countP_eq]
  have hhead : attHas (att ++ [r]) (attKey u r.date) = decide (u = r.uid) := by
    apply bool_eq_of_true_iff
    rw [attHas_iff hu hpipeA', decide_eq_true_eq]
    constructor
    · rintro ⟨a, ha, hau, had⟩
      rcases List.mem_append.mp ha with h | h
      · exact absurd had (hnew a h)
      · rw [List.mem_singleton] at h
        subst h
        exact hau.symm
    · intro h
      exact ⟨r, List.mem_append_right _ (List.mem_singleton_self r), h.symm, rfl⟩
  have htail : ∀ d ∈ dates att,
      (!(attHas (att ++ [r]) (attKey u d))) = (!(attHas att (attKey u d))) := by
    intro d hd
    have : attHas (att ++ [r]) (attKey u d) = attHas att (attKey u d) := by
      apply bool_eq_of_true_iff
      rw [attHas_iff hu hpipeA', attHas_iff hu hpipeA]
      constructor
      · rintro ⟨a, ha, hau, had⟩
        rcases List.mem_append.mp ha with h | h
        · exact ⟨a, h, hau, had⟩
        · rw [List.mem_singleton] at h
          subst h
          subst had
          exact absurd hd hdnotmem
      · rintro ⟨a, ha, hau, had⟩
        exact ⟨a, List.mem_append_left _ ha, hau, had⟩
    rw [this]
  rw [hstep1]
  unfold absencesOf
  rw [List.filter_cons, List.filter_congr htail]
  by_cases hur : u = r.uid
  · have hh : (!(attHas (att ++ [r]) (attKey u r.date))) = false := by
      rw [hhead, decide_eq_true hur]
      rfl
    rw [if_neg (by simp [hh])]
    simp [hur]
  · have hh : (!(attHas (att ++ [r]) (attKey u r.date))) = true := by
      rw [hhead, decide_eq_false hur]
      rfl
    rw [if_pos hh]
    simp [hur]

/-- C10 counterexample: the claim predicts that a record with an unconfigured
section code and a novel date raises every roster student's absence count by
one, but the student with the record's own identity is counted as attending
that date (the membership set is built from all records regardless of
section), so that student's count does not change.  With roster `["1"]` and
one record `{uid "1", section "9999"}`, the computed count is `0`, not
`0 + 1`. -/
theorem C10_counterexample :
    ¬ (∀ e ∈ studentsBySection [Student.mk "1" "one" "0201" none]
          [AttendanceRecord.mk "1" "2026-02-06" "9999" ""] "0201",
        e.absences = absencesOf ([] : List AttendanceRecord)
            (dates ([] : List AttendanceRecord)) e.uid + 1) := by
  decide

/-- C10 (amended): a record whose section code is not configured contributes
to no `sections[code]` tally, but its date still enters the global date list;
if that date occurs in no other record, every section's counts array gains an
entry whose value is zero, and the computed absence count of every roster
student with a different identity increases by one, while a roster student
with the record's identity keeps an unchanged count (the membership set is
built from all records regardless of section, so that student is counted as
attending the new date). -/
theorem C10_unconfigured_section (roster : List Student) (att : List AttendanceRecord)
    (r : AttendanceRecord)
    (hsec : r.section' ∉ sectionCodes)
    (hnew : ∀ a ∈ att, a.date ≠ r.date)
    (hpipeR : ∀ s ∈ roster, pipeFree s.uid)
    (hpipeA : ∀ a ∈ att, pipeFree a.uid)
    (hpipeU : pipeFree r.uid) :
    (∀ c d : String, sectionData (att ++ [r]) c d = sectionData att c d) ∧
    r.date ∈ dates (att ++ [r]) ∧
    (dates (att ++ [r])).length = (dates att).length + 1 ∧
    (∀ c ∈ sectionCodes,
      (sections (att ++ [r]) c).length = (dates att).length + 1 ∧
      sectionData (att ++ [r]) c r.date = 0) ∧
    (∀ s ∈ roster, s.uid ≠ r.uid →
      absencesOf (att ++ [r]) (dates (att ++ [r])) s.uid =
        absencesOf att (dates att) s.uid + 1) ∧
    (∀ s ∈ roster, s.uid = r.uid →
      absencesOf (att ++ [r]) (dates (att ++ [r])) s.uid =
        absencesOf att (dates att) s.uid) := by
  have hsd : ∀ c d : String, sectionData (att ++ [r]) c d = sectionData att c d := by
    intro c d
    rw [sectionData_eq, sectionData_eq]
    by_cases hc : c ∈ sectionCodes
    · rw [if_pos hc, if_pos hc, List.filter_append]
      have : [r].filter (fun a => a.section' = c ∧ a.date = d) = [] := by
        rw [List.filter_eq_nil_iff]
        intro a ha
        rw [List.mem_singleton] at ha
        subst ha
        simp only [decide_eq_true_eq, not_and]
        intro h
        exact absurd (h ▸ hc) hsec
      rw [this, List.append_nil]
    · rw [if_neg hc, if_neg hc]
  have hlen : ∀ l : List AttendanceRecord,
      (dates l).length = (l.map (fun a => a.date)).toFinset.card := by
    intro l
    calc (dates l).length = ((l.map (fun a => a.date)).dedup).length :=
          List.length_insertionSort _ _
      _ = (l.map (fun a => a.date)).toFinset.card := (List.card_toFinset _).symm
  have hdnot : r.date ∉ (att.map (fun a => a.date)).toFinset := by
    rw [List.mem_toFinset, List.mem_map]
    rintro ⟨a, ha, hda⟩
    exact hnew a ha hda
  have hcount : (dates (att ++ [r])).length = (dates att).length + 1 := by
    rw [hlen, hlen, List.map_append, List.toFinset_append]
    have : ([r].map (fun a => a.date)).toFinset = {r.date} := by simp
    rw [this, Finset.union_comm, ← Finset.insert_eq,
      Finset.card_insert_of_not_mem hdnot]
  refine ⟨hsd, ?_, hcount, ?_, ?_, ?_⟩
  · exact mem_dates.mpr ⟨r, List.mem_append_right _ (List.mem_singleton_self r), rfl⟩
  · intro c hc
    constructor
    · rw [sections, List.length_map, hcount]
    · rw [hsd, sectionData_eq, if_pos hc]
      rw [List.length_eq_zero, List.filter_eq_nil_iff]
      intro a ha
      simp only [decide_eq_true_eq, not_and]
      intro _
      exact hnew a ha
  · intro s hs hne
    rw [absencesOf_append_fresh hnew hpipeA hpipeU (hpipeR s hs), if_neg hne]
  · intro s hs heq
    rw [absencesOf_append_fresh hnew hpipeA hpipeU (hpipeR s hs), if_pos heq]
    simp

/-- C10 witness: with a two-student roster and one record with an
unconfigured section and a fresh date, the non-matching student's absence
count rises by one and the matching student's count is unchanged. -/
theorem C10_unconfigured_section_witness :
    absencesOf ([] ++ [AttendanceRecord.mk "1" "2026-02-06" "9999" ""])
        (dates ([] ++ [AttendanceRecord.mk "1" "2026-02-06" "9999" ""])) "2" =
      absencesOf [] (dates []) "2" + 1 ∧
    absencesOf ([] ++ [AttendanceRecord.mk "1" "2026-02-06" "9999" ""])
        (dates ([] ++ [AttendanceRecord.mk "1" "2026-02-06" "9999" ""])) "1" =
      absencesOf [] (dates []) "1" := by
  have h := C10_unconfigured_section
    [Student.mk "1" "one" "0201" none, Student.mk "2" "two" "0201" none] []
    (AttendanceRecord.mk "1" "2026-02-06" "9999" "")
    (by decide) (by decide) (by decide) (by decide) (by decide)
  constructor
  · exact h.2.2.2.2.1 (Student.mk "2" "two" "0201" none) (by decide) (by decide)
  · exact h.2.2.2.2.2 (Student.mk "1" "one" "0201" none) (by decide) (by decide)

end AttendanceApp
